import Mathlib

/-!
# Verification of the caixa2bean core: consolidator and classifier

A shallow embedding of the two core components of the caixa2bean
repository — `src/consolidator.ts` (`TransactionConsolidator`) and the
classifier portion of the Beancount converter
(`BeancountConverter.determineAccount` / `evaluateFallbackCondition`) —
together with theorems settling the frozen claims about them.

Modelling conventions:

* Monetary amounts are modelled as integer cents (`Int`).  Every amount
  literal appearing in the source (`0.5`, `1.5`, `0.6`, `1.2`, `2.00`,
  `2.5`) is exact at cent precision, and the source only ever *compares*
  amounts (it never does arithmetic on them), so the embedding is exact
  on all inputs representable in cents: `0.5` becomes `50`, etc.
* TypeScript `number | null` fields become `Option Int`; JavaScript
  truthiness of a number (`x &&`, `x || y`) is modelled explicitly
  (`null` and `0` are falsy).
* JavaScript strings are Lean `String`s.  `toLowerCase`, `trim`,
  `includes` and the `localeCompare` ordering are modelled by the
  executable functions below, which agree with JavaScript on the ASCII
  strings the program manipulates.
* `Array.prototype.sort` with a consistent comparator is (per ES2019)
  a stable sort; the unique stable sorted permutation is computed here
  with `List.insertionSort`.
* The non-null assertions in `createConsolidatedTransaction` can fail at
  run time (a `TypeError` is thrown when `find` returns `undefined`);
  this is modelled by an `Option` result, `none` standing for the crash.
* `TransactionConsolidator.manualReviewCandidates` is a `private static`
  (process-lifetime) field.  It is modelled by threading an explicit
  `reviewState` value through `consolidate`: the argument is the field's
  value before the call and the second component of the result is its
  value after the call.  The first component of the result is the value
  the TypeScript function actually returns.
-/

/-! ## String helpers (JavaScript semantics on ASCII strings) -/

/-- JavaScript `toLowerCase` restricted to the ASCII alphabet: lower the
characters `A`–`Z`, leave everything else unchanged. -/
def jsToLower (c : Char) : Char :=
  if 'A' ≤ c ∧ c ≤ 'Z' then Char.ofNat (c.toNat + 32) else c

/-- JavaScript `String.prototype.toLowerCase` on ASCII strings. -/
def toLowerStr (s : String) : String := ⟨s.data.map jsToLower⟩

/-- The whitespace characters stripped by `String.prototype.trim` that can
occur in the program's data. -/
def isWs (c : Char) : Bool := c = ' ' || c = '\t' || c = '\n' || c = '\r'

/-- JavaScript `String.prototype.trim`. -/
def trimStr (s : String) : String :=
  ⟨((s.data.dropWhile isWs).reverse.dropWhile isWs).reverse⟩

/-- JavaScript `String.prototype.includes`: `pat` occurs as a contiguous
substring of `s`. -/
def containsSub (s pat : String) : Bool :=
  s.data.tails.any (fun t => pat.data.isPrefixOf t)

/-- Lexicographic (code-point) `≤` on character lists.  On the ASCII
digit/slash strings compared by the program this is exactly the ordering
computed by `String.prototype.localeCompare`. -/
def strLeb : List Char → List Char → Bool
  | [], _ => true
  | _ :: _, [] => false
  | a :: as, b :: bs => if a = b then strLeb as bs else decide (a.toNat < b.toNat)

/-- JavaScript `Array.prototype.join('')`-style concatenation with a
separator, i.e. `String.intercalate` written with plain recursion so that
it reduces in the kernel. -/
def joinSep (sep : String) : List String → String
  | [] => ""
  | [s] => s
  | s :: rest => s ++ sep ++ joinSep sep rest

/-! ## Data model (`src/types.ts`) -/

/-- A bank-statement line item (`ExcelTransaction` in `src/types.ts`).
Amounts are in integer cents; `creditAmount`/`debitAmount` are `null`able
in the source and become `Option Int`. -/
structure ExcelTransaction where
  accountNumber : String := ""
  branchCode : String := ""
  currency : String := "EUR"
  transactionDate : String := ""
  valueDate : String := ""
  creditAmount : Option Int := none
  debitAmount : Option Int := none
  balance : Int := 0
  conceptoComun : String := ""
  conceptoPropio : String := ""
  referencia1 : String := ""
  referencia2 : String := ""
  conceptoComplementario1 : String := ""
  conceptoComplementario2 : String := ""
  conceptoComplementario3 : String := ""
  conceptoComplementario4 : String := ""
  conceptoComplementario5 : String := ""
  conceptoComplementario6 : String := ""
  conceptoComplementario7 : String := ""
  conceptoComplementario8 : String := ""
  conceptoComplementario9 : String := ""
  conceptoComplementario10 : String := ""
deriving DecidableEq, Repr

/-- `ConsolidatorConfig` from `src/config.ts`; amounts in cents. -/
structure ConsolidatorConfig where
  enabled : Bool
  requireRefund : Bool
  preAuthThreshold : Int
  purchaseMinAmount : Int
  purchaseMaxAmount : Int
  timeWindowHours : Int
  strictMode : Bool
  manualReviewEnabled : Bool
deriving DecidableEq, Repr

/-- The default consolidator configuration built by
`ConfigManager.loadConfig` when no `config.json` is present
(`preAuthThreshold: 2.5`, `purchaseMinAmount: 0.5`,
`purchaseMaxAmount: 2.0`, in cents). -/
def defaultConsolidatorConfig : ConsolidatorConfig :=
  { enabled := true
    requireRefund := true
    preAuthThreshold := 250
    purchaseMinAmount := 50
    purchaseMaxAmount := 200
    timeWindowHours := 24
    strictMode := true
    manualReviewEnabled := true }

/-- The `'high' | 'medium' | 'low'` confidence union type. -/
inductive Confidence where
  | high
  | medium
  | low
deriving DecidableEq, Repr

/-- `ConsolidationCandidate` from `src/consolidator.ts`. -/
structure ConsolidationCandidate where
  transactions : List ExcelTransaction
  confidence : Confidence
  reasoning : String
  suggestedAccount : String
deriving DecidableEq, Repr

/-! ## `TransactionConsolidator` (`src/consolidator.ts`) -/

/-- `TransactionConsolidator.buildDescription`: join the non-empty fields
`conceptoComplementario1`, `conceptoComplementario9`,
`conceptoComplementario2` (in that order) with `" - "`, trim, and fall
back to `"Transaction"` when empty. -/
def buildDescription (txn : ExcelTransaction) : String :=
  let parts := [txn.conceptoComplementario1, txn.conceptoComplementario9,
    txn.conceptoComplementario2].filter (· ≠ "")
  let s := trimStr (joinSep " - " parts)
  if s = "" then "Transaction" else s

/-- `TransactionConsolidator.getTransactionId`: the identity of a
transaction for the `processed` set.  The source builds the template
string `` `${date}-${ref}-${debit||0}-${credit||0}` ``; the embedding
keeps the four components as a tuple (equal quadruples give equal
strings; the program's references and amounts make the encoding
injective). -/
def getTransactionId (txn : ExcelTransaction) : String × String × Int × Int :=
  (txn.transactionDate, txn.referencia2, txn.debitAmount.getD 0, txn.creditAmount.getD 0)

/-- `TransactionConsolidator.isRefundCandidate`: a positive credit amount
whose description contains both `'devolucion'` and `'compra'`. -/
def isRefundCandidate (txn : ExcelTransaction) : Bool :=
  match txn.creditAmount with
  | none => false
  | some c =>
    if c ≤ 0 then false
    else
      let description := toLowerStr (buildDescription txn)
      containsSub description "devolucion" && containsSub description "compra"

/-- The indices visited by a backward `for` loop
`for (let i = idx - 1; i >= 0 && i > idx - (bound + 1); i--)`:
`idx - 1, idx - 2, …` down to `max 0 (idx - bound)`, in that order. -/
def backOffsets (idx bound : Nat) : List Nat :=
  (List.range bound).filterMap (fun k => if k < idx then some (idx - 1 - k) else none)

/-- The shared backward-scan shape of `findPrecedingPurchase` and
`findPrecedingPreAuth`: visit the given indices in order, `break` as soon
as the transaction's date differs from the refund's, `continue` past a
different `referencia2`, and accept the first transaction passing
`test`. -/
def scanBack (txs : List ExcelTransaction) (refund : ExcelTransaction)
    (test : ExcelTransaction → Bool) : List Nat → Option ExcelTransaction
  | [] => none
  | i :: rest =>
    match txs.get? i with
    | none => none
    | some txn =>
      if txn.transactionDate ≠ refund.transactionDate then none
      else if txn.referencia2 ≠ refund.referencia2 then scanBack txs refund test rest
      else if test txn then some txn
      else scanBack txs refund test rest

/-- The acceptance test of `findPrecedingPurchase`: a truthy
`debitAmount` within `[purchaseMinAmount, purchaseMaxAmount]` whose
description contains `'compra con tarjeta'`. -/
def purchaseTest (config : ConsolidatorConfig) (txn : ExcelTransaction) : Bool :=
  match txn.debitAmount with
  | none => false
  | some d =>
    d ≠ 0 && config.purchaseMinAmount ≤ d && d ≤ config.purchaseMaxAmount &&
      containsSub (toLowerStr (buildDescription txn)) "compra con tarjeta"

/-- `TransactionConsolidator.findPrecedingPurchase`: scan backward from
the refund's position.  The loop guard `i > refundIndex - 10` visits the
9 positions `refundIndex - 1 … refundIndex - 9`. -/
def findPrecedingPurchase (txs : List ExcelTransaction) (refundIndex : Nat)
    (refund : ExcelTransaction) (config : ConsolidatorConfig) : Option ExcelTransaction :=
  scanBack txs refund (purchaseTest config) (backOffsets refundIndex 9)

/-- `TransactionConsolidator.findPrecedingPreAuth`: scan backward from
the refund's position (loop guard `i > refundIndex - 15`, i.e. the 14
positions before it) for a charge with `debitAmount === creditAmount` of
the refund.  The `_purchase` argument is unused in the source. -/
def findPrecedingPreAuth (txs : List ExcelTransaction) (refundIndex : Nat)
    (refund : ExcelTransaction) (_purchase : ExcelTransaction) : Option ExcelTransaction :=
  scanBack txs refund (fun txn => txn.debitAmount == refund.creditAmount)
    (backOffsets refundIndex 14)

/-- The confidence score accumulated by
`TransactionConsolidator.calculateConfidence`. -/
def confScore (preAuth purchase refund : ExcelTransaction) : Nat :=
  (if containsSub (toLowerStr (buildDescription preAuth)) "vending" ||
      containsSub (toLowerStr (buildDescription preAuth)) "serunion" then 2 else 0)
  + (if refund.creditAmount == preAuth.debitAmount then 2 else 0)
  + (if 50 ≤ purchase.debitAmount.getD 0 ∧ purchase.debitAmount.getD 0 ≤ 150 then 1 else 0)
  + (if preAuth.referencia2 = purchase.referencia2 ∧
        purchase.referencia2 = refund.referencia2 then 1 else 0)

/-- The score → tier mapping at the end of `calculateConfidence`. -/
def confTier (score : Nat) : Confidence :=
  if 5 ≤ score then .high else if 3 ≤ score then .medium else .low

/-- `TransactionConsolidator.calculateConfidence`. -/
def calculateConfidence (preAuth purchase refund : ExcelTransaction) : Confidence :=
  confTier (confScore preAuth purchase refund)

/-- Rendering of an `Option Int` amount inside a template string
(`${txn.debitAmount}` prints `null` for `null`).  The numeral rendering
abstracts JavaScript number formatting; no claim depends on it. -/
def amtStr : Option Int → String
  | none => "null"
  | some n => toString n

/-- `TransactionConsolidator.generateReasoning`. -/
def generateReasoning (preAuth purchase refund : ExcelTransaction) : String :=
  joinSep ", "
    [ "Pre-auth: " ++ buildDescription preAuth ++ " (" ++ amtStr preAuth.debitAmount ++ "€)"
    , "Purchase: " ++ buildDescription purchase ++ " (" ++ amtStr purchase.debitAmount ++ "€)"
    , "Refund: " ++ buildDescription refund ++ " (" ++ amtStr refund.creditAmount ++ "€)" ]

/-- `TransactionConsolidator.generateConsolidatedDescription`: pre-auth
description, `" - "`, and an item-type token inferred from the purchase's
debit amount (`≤ 0.6` → `"Snack"`, `≤ 1.2` → `"Drink"`, else
`"Purchase"`; in cents `60` and `120`). -/
def generateConsolidatedDescription (preAuth purchase : ExcelTransaction) : String :=
  let purchaseAmount := purchase.debitAmount.getD 0
  let itemType :=
    if purchaseAmount ≤ 60 then "Snack"
    else if purchaseAmount ≤ 120 then "Drink"
    else "Purchase"
  buildDescription preAuth ++ " - " ++ itemType

/-- `TransactionConsolidator.createConsolidatedTransaction`: re-derive
the purchase leg as the first candidate transaction with a truthy debit
below `preAuthThreshold` and the pre-auth leg as the first with a truthy
debit at or above it, then copy the purchase with a rewritten
`conceptoComplementario1`.  The source uses non-null assertions on the
two `find` calls; `none` models the `TypeError` thrown when either is
`undefined`. -/
def createConsolidatedTransaction (candidate : ConsolidationCandidate)
    (config : ConsolidatorConfig) : Option ExcelTransaction :=
  let isBelow := fun (t : ExcelTransaction) =>
    match t.debitAmount with
    | none => false
    | some d => d ≠ 0 && d < config.preAuthThreshold
  let isAtOrAbove := fun (t : ExcelTransaction) =>
    match t.debitAmount with
    | none => false
    | some d => d ≠ 0 && config.preAuthThreshold ≤ d
  match candidate.transactions.find? isBelow, candidate.transactions.find? isAtOrAbove with
  | some purchase, some preAuth =>
    some { purchase with
      conceptoComplementario1 := generateConsolidatedDescription preAuth purchase }
  | _, _ => none

/-- `TransactionConsolidator.detectPreAuthPattern`: starting from a
refund-shaped transaction at `startIndex`, search backward for the
purchase and the pre-auth legs and assemble the candidate. -/
def detectPreAuthPattern (txs : List ExcelTransaction) (startIndex : Nat)
    (config : ConsolidatorConfig) : Option ConsolidationCandidate :=
  match txs.get? startIndex with
  | none => none
  | some candidate =>
    if !isRefundCandidate candidate then none
    else
      match findPrecedingPurchase txs startIndex candidate config with
      | none => none
      | some purchase =>
        match findPrecedingPreAuth txs startIndex candidate purchase with
        | none => none
        | some preAuth =>
          some { transactions := [preAuth, purchase, candidate]
                 confidence := calculateConfidence preAuth purchase candidate
                 reasoning := generateReasoning preAuth purchase candidate
                 suggestedAccount := "Expenses:Food:Snacks" }

/-- The comparator of the sort in `consolidate`:
`a.transactionDate.localeCompare(b.transactionDate)`, i.e. lexicographic
order on the date strings. -/
def txnDateLe (a b : ExcelTransaction) : Prop :=
  strLeb a.transactionDate.data b.transactionDate.data = true

instance : DecidableRel txnDateLe :=
  fun a b =>
    inferInstanceAs (Decidable (strLeb a.transactionDate.data b.transactionDate.data = true))

/-- The date sort performed at the top of `consolidate`.
`Array.prototype.sort` with a consistent comparator is a stable sort
(ES2019); its output is the unique stable sorted permutation, computed
here by insertion sort. -/
def sortByDate (txs : List ExcelTransaction) : List ExcelTransaction :=
  txs.insertionSort txnDateLe

/-- The main loop of `consolidate` (`for (let i = 0; i < sorted.length; i++)`),
written as recursion over the list of remaining indices.  `processed` is
the set of consumed transaction ids, `out` the `consolidated` array and
`review` the `manualReview` array.  `none` models a run-time crash inside
`createConsolidatedTransaction`. -/
def consolidateScan (config : ConsolidatorConfig) (txs : List ExcelTransaction) :
    List Nat → List (String × String × Int × Int) →
    List ExcelTransaction → List ConsolidationCandidate →
    Option (List ExcelTransaction × List ConsolidationCandidate)
  | [], _, out, review => some (out, review)
  | i :: rest, processed, out, review =>
    match txs.get? i with
    | none => none
    | some txn =>
      if getTransactionId txn ∈ processed then
        consolidateScan config txs rest processed out review
      else
        match detectPreAuthPattern txs i config with
        | some candidate =>
          if candidate.confidence = .high then
            match createConsolidatedTransaction candidate config with
            | none => none
            | some consolidatedTxn =>
              consolidateScan config txs rest
                (processed ++ candidate.transactions.map getTransactionId)
                (out ++ [consolidatedTxn]) review
          else if config.manualReviewEnabled then
            consolidateScan config txs rest processed (out ++ [txn]) (review ++ [candidate])
          else
            consolidateScan config txs rest processed (out ++ [txn]) review
        | none =>
          consolidateScan config txs rest processed (out ++ [txn]) review

/-- `TransactionConsolidator.consolidate`.  `reviewState` is the value of
the `private static manualReviewCandidates` field before the call; the
result pairs the list the TypeScript function returns with the field's
value after the call (the field is only assigned when consolidation is
enabled and the scan completes). -/
def consolidate (config : ConsolidatorConfig)
    (reviewState : List ConsolidationCandidate) (txs : List ExcelTransaction) :
    Option (List ExcelTransaction × List ConsolidationCandidate) :=
  if config.enabled = false then some (txs, reviewState)
  else
    let sorted := sortByDate txs
    match consolidateScan config sorted (List.range sorted.length) [] [] [] with
    | none => none
    | some (out, review) => some (out, review)

/-- `TransactionConsolidator.getManualReviewCandidates`: returns the
static field's current value. -/
def getManualReviewCandidates (reviewState : List ConsolidationCandidate) :
    List ConsolidationCandidate :=
  reviewState

/-! ## `BeancountConverter` classifier (`src/converter.ts`) -/

/-- A keyword rule (`MerchantRule` in `src/converter.ts`). -/
structure MerchantRule where
  keywords : List String
  account : String
deriving DecidableEq, Repr

/-- A regex rule (`PatternRule` in `src/converter.ts`). -/
structure PatternRule where
  regex : String
  account : String
deriving DecidableEq, Repr

/-- A fallback rule (`FallbackRule` in `src/converter.ts`). -/
structure FallbackRule where
  condition : String
  account : String
deriving DecidableEq, Repr

/-- `MerchantConfig`: the ordered rule lists.  An absent `fallbacks`
field in the source behaves as the empty list. -/
structure MerchantConfig where
  rules : List MerchantRule
  patterns : List PatternRule
  fallbacks : List FallbackRule
deriving DecidableEq, Repr

/-- The derived description built by `determineAccount`: the non-empty
fields `conceptoComplementario1`, `conceptoComplementario9`,
`conceptoComplementario2` joined with a single space and lower-cased
(note: no `" - "` separator, no trim and no `"Transaction"` fallback,
unlike `buildDescription`). -/
def descriptionOf (txn : ExcelTransaction) : String :=
  toLowerStr (joinSep " "
    ([txn.conceptoComplementario1, txn.conceptoComplementario9,
      txn.conceptoComplementario2].filter (· ≠ "")))

/-- The JavaScript expression `txn.debitAmount || txn.creditAmount || 0`
in `evaluateFallbackCondition` (`null` and `0` are falsy). -/
def jsAmount (txn : ExcelTransaction) : Int :=
  match txn.debitAmount with
  | some d => if d ≠ 0 then d else
      match txn.creditAmount with
      | some c => c
      | none => 0
  | none =>
    match txn.creditAmount with
    | some c => c
    | none => 0

/-- `BeancountConverter.evaluateFallbackCondition`: the evaluator only
recognises the two literal clause strings `'amount <= 2.00'` (in cents:
fail when the amount exceeds 200) and
`"description CONTAINS 'compra con tarjeta'"`; any other text in the
condition is ignored, and a condition with neither recognised clause
matches every transaction. -/
def evaluateFallbackCondition (condition : String) (txn : ExcelTransaction)
    (description : String) : Bool :=
  let amount := jsAmount txn
  if containsSub condition "amount <= 2.00" && decide (200 < amount) then false
  else if containsSub condition "description CONTAINS 'compra con tarjeta'" &&
      !containsSub description "compra con tarjeta" then false
  else true

/-- A keyword rule matches when any of its keywords, lower-cased, occurs
in the (already lower-cased) description. -/
def keywordMatches (description : String) (rule : MerchantRule) : Bool :=
  rule.keywords.any (fun keyword => containsSub description (toLowerStr keyword))

/-- The pattern-rule stage of `determineAccount`.  `compileRegex` models
`new RegExp(p.regex, 'i')`: `none` is the `SyntaxError` thrown on a
malformed pattern (which propagates — there is no `try`/`catch`), `some
test` the compiled case-insensitive matcher.  The result is the first
matching pattern's account, `Except.error` carrying the malformed
pattern. -/
def patternStage (compileRegex : String → Option (String → Bool)) :
    List PatternRule → String → Except String (Option String)
  | [], _ => .ok none
  | p :: rest, description =>
    match compileRegex p.regex with
    | none => .error p.regex
    | some test =>
      if test description then .ok (some p.account)
      else patternStage compileRegex rest description

/-- `BeancountConverter.determineAccount`: keyword rules in order, then
regex patterns in order, then fallback rules in order, then the reserved
`"Expenses:Unknown"` account.  Errors propagate to the caller. -/
def determineAccount (compileRegex : String → Option (String → Bool))
    (config : MerchantConfig) (txn : ExcelTransaction) : Except String String :=
  let description := descriptionOf txn
  match config.rules.find? (keywordMatches description) with
  | some rule => .ok rule.account
  | none =>
    match patternStage compileRegex config.patterns description with
    | .error e => .error e
    | .ok (some account) => .ok account
    | .ok none =>
      match config.fallbacks.find?
          (fun fb => evaluateFallbackCondition fb.condition txn description) with
      | some fb => .ok fb.account
      | none => .ok "Expenses:Unknown"

/-! ## Helper lemmas -/

theorem strLeb_refl : ∀ s : List Char, strLeb s s = true
  | [] => rfl
  | a :: as => by simp [strLeb, strLeb_refl as]

theorem strLeb_total : ∀ s t : List Char, strLeb s t = true ∨ strLeb t s = true := by
  intro s
  induction s with
  | nil => intro t; left; rfl
  | cons a as ih =>
    intro t
    cases t with
    | nil => right; rfl
    | cons b bs =>
      by_cases hab : a = b
      · subst hab
        simpa [strLeb] using ih bs
      · have hba : b ≠ a := fun h => hab h.symm
        have hne : a.toNat ≠ b.toNat := fun h => hab (Char.ext (UInt32.toNat.inj h))
        rcases Nat.lt_or_ge a.toNat b.toNat with h | h
        · left; simp [strLeb, hab, h]
        · right
          have : b.toNat < a.toNat := lt_of_le_of_ne h (fun h2 => hne h2.symm)
          simp [strLeb, hba, this]

theorem strLeb_trans :
    ∀ s t u : List Char, strLeb s t = true → strLeb t u = true → strLeb s u = true := by
  intro s
  induction s with
  | nil => intro t u _ _; rfl
  | cons a as ih =>
    intro t u hst htu
    cases t with
    | nil => simp [strLeb] at hst
    | cons b bs =>
      cases u with
      | nil => simp [strLeb] at htu
      | cons c cs =>
        by_cases hab : a = b <;> by_cases hbc : b = c
        · subst hab; subst hbc
          simp only [strLeb, if_pos rfl] at hst htu ⊢
          exact ih bs cs hst htu
        · subst hab
          simpa [strLeb, hbc] using htu
        · subst hbc
          simpa [strLeb, hab] using hst
        · simp only [strLeb, if_neg hab] at hst
          simp only [strLeb, if_neg hbc] at htu
          have h1 : a.toNat < b.toNat := by simpa using hst
          have h2 : b.toNat < c.toNat := by simpa using htu
          have hac : a.toNat < c.toNat := Nat.lt_trans h1 h2
          have hne : a ≠ c := fun h => by
            subst h
            exact Nat.lt_irrefl _ hac
          simp [strLeb, hne, hac]

instance : IsTotal ExcelTransaction txnDateLe :=
  ⟨fun a b => strLeb_total a.transactionDate.data b.transactionDate.data⟩

instance : IsTrans ExcelTransaction txnDateLe :=
  ⟨fun a b c => strLeb_trans a.transactionDate.data b.transactionDate.data
    c.transactionDate.data⟩

/-- A transaction accepted by `scanBack` passes the test and has the
refund's `referencia2`. -/
theorem scanBack_some {txs : List ExcelTransaction} {refund t : ExcelTransaction}
    {test : ExcelTransaction → Bool} :
    ∀ {is : List Nat}, scanBack txs refund test is = some t →
      test t = true ∧ t.referencia2 = refund.referencia2 := by
  intro is
  induction is with
  | nil => intro h; simp [scanBack] at h
  | cons i rest ih =>
    intro h
    rw [scanBack] at h
    cases hget : txs.get? i with
    | none => rw [hget] at h; exact absurd h (by simp)
    | some txn =>
      rw [hget] at h
      simp only at h
      by_cases hdate : txn.transactionDate ≠ refund.transactionDate
      · rw [if_pos hdate] at h; exact absurd h (by simp)
      · rw [if_neg hdate] at h
        by_cases href : txn.referencia2 ≠ refund.referencia2
        · rw [if_pos href] at h; exact ih h
        · rw [if_neg href] at h
          by_cases htest : test txn
          · rw [if_pos htest] at h
            cases h
            exact ⟨htest, not_not.mp href⟩
          · rw [if_neg htest] at h; exact ih h

/-- A score of at least 3 never maps to the low tier. -/
theorem confTier_of_ge_three {score : Nat} (h : 3 ≤ score) :
    confTier score = .high ∨ confTier score = .medium := by
  unfold confTier
  split_ifs <;> simp_all

/-! ## C5: confidence scoring and tier boundaries -/

/-- C5: the confidence score is the sum of +2 for a vending/dispenser
keyword in the pre-auth's description, +2 when the refund's credit amount
equals the pre-auth's debit amount, +1 when the purchase's debit amount
lies within [0.5, 1.5] (cents: [50, 150]), and +1 when all three
transactions share `referencia2`; the tier is high iff the score is ≥ 5,
medium iff it is in [3, 5), and low otherwise. -/
theorem c5_confidence (preAuth purchase refund : ExcelTransaction) :
    confScore preAuth purchase refund =
      (if containsSub (toLowerStr (buildDescription preAuth)) "vending" ||
          containsSub (toLowerStr (buildDescription preAuth)) "serunion" then 2 else 0)
      + (if refund.creditAmount == preAuth.debitAmount then 2 else 0)
      + (if 50 ≤ purchase.debitAmount.getD 0 ∧ purchase.debitAmount.getD 0 ≤ 150
          then 1 else 0)
      + (if preAuth.referencia2 = purchase.referencia2 ∧
            purchase.referencia2 = refund.referencia2 then 1 else 0)
  ∧ (calculateConfidence preAuth purchase refund = .high ↔
      5 ≤ confScore preAuth purchase refund)
  ∧ (calculateConfidence preAuth purchase refund = .medium ↔
      3 ≤ confScore preAuth purchase refund ∧ confScore preAuth purchase refund < 5)
  ∧ (calculateConfidence preAuth purchase refund = .low ↔
      confScore preAuth purchase refund < 3)
  ∧ confTier 5 = .high ∧ confTier 3 = .medium ∧ confTier 2 = .low := by
  refine ⟨rfl, ?_, ?_, ?_, by decide, by decide, by decide⟩ <;>
    · unfold calculateConfidence confTier
      split_ifs <;> simp_all <;> omega

/-! ## C10: detected candidates are never low confidence -/

/-- C10: every candidate returned by `detectPreAuthPattern` has
confidence high or medium, never low — the backward searches guarantee
the pre-auth's debit equals the refund's credit (+2) and that all three
legs share `referencia2` (+1), so the score is at least 3. -/
theorem c10_detect_confidence (txs : List ExcelTransaction) (startIndex : Nat)
    (config : ConsolidatorConfig) (candidate : ConsolidationCandidate)
    (h : detectPreAuthPattern txs startIndex config = some candidate) :
    candidate.confidence = .high ∨ candidate.confidence = .medium := by
  unfold detectPreAuthPattern at h
  cases hget : txs.get? startIndex with
  | none => rw [hget] at h; exact absurd h (by simp)
  | some refund =>
    rw [hget] at h
    simp only at h
    by_cases href : isRefundCandidate refund
    · rw [if_neg (by simp [href])] at h
      cases hpu : findPrecedingPurchase txs startIndex refund config with
      | none => rw [hpu] at h; exact absurd h (by simp)
      | some purchase =>
        rw [hpu] at h
        simp only at h
        cases hpa : findPrecedingPreAuth txs startIndex refund purchase with
        | none => rw [hpa] at h; exact absurd h (by simp)
        | some preAuth =>
          rw [hpa] at h
          simp only at h
          obtain ⟨hpaTest, hpaRef⟩ := scanBack_some hpa
          obtain ⟨_, hpuRef⟩ := scanBack_some hpu
          have hAmt : refund.creditAmount == preAuth.debitAmount := by
            have := beq_iff_eq.mp hpaTest
            exact beq_iff_eq.mpr this.symm
          have hconf : candidate.confidence = calculateConfidence preAuth purchase refund := by
            cases h; rfl
          have hRefs : preAuth.referencia2 = purchase.referencia2 ∧
              purchase.referencia2 = refund.referencia2 :=
            ⟨hpaRef.trans hpuRef.symm, hpuRef⟩
          rw [hconf]
          apply confTier_of_ge_three
          unfold confScore
          rw [if_pos hAmt, if_pos hRefs]
          split_ifs <;> omega
    · rw [if_pos (by simp [href])] at h
      exact absurd h (by simp)

/-! ## Concrete transactions used by the evaluation theorems -/

/-- Pre-auth leg of the README's vending-machine example: 3.00€ debit
from a vending machine, identical date and card reference. -/
def tA : ExcelTransaction :=
  { transactionDate := "31/12/2025", referencia2 := "1234",
    debitAmount := some 300, balance := 1000,
    conceptoComplementario1 := "SERUNION VENDING" }

/-- Purchase leg: 0.50€ card purchase. -/
def tB : ExcelTransaction :=
  { transactionDate := "31/12/2025", referencia2 := "1234",
    debitAmount := some 50, balance := 950,
    conceptoComplementario1 := "COMPRA CON TARJETA" }

/-- Refund leg: 3.00€ credit refunding the pre-auth. -/
def tC : ExcelTransaction :=
  { transactionDate := "31/12/2025", referencia2 := "1234",
    creditAmount := some 300, balance := 1250,
    conceptoComplementario1 := "DEVOLUCION COMPRA" }

/-! ## C1: the partition invariant fails on a merged triple -/

/-- C1: evaluating `consolidate` on the three-leg vending pattern (the
README's own example, which both the spec and the README say collapses to
a single consolidated transaction).  The candidate is detected with high
confidence and all three legs are marked consumed, yet the output
contains the pre-auth and the purchase verbatim *and* the synthetic
transaction: the legs were already emitted at indices 0 and 1 before the
refund at index 2 triggered the merge, so they appear twice — once
verbatim, once consumed — and the output has three entries instead of
one. -/
theorem c1_code_eval :
    consolidate defaultConsolidatorConfig [] [tA, tB, tC] =
      some ([tA, tB, { tB with conceptoComplementario1 := "SERUNION VENDING - Snack" }], [])
  ∧ (detectPreAuthPattern [tA, tB, tC] 2 defaultConsolidatorConfig).map
      ConsolidationCandidate.transactions = some [tA, tB, tC]
  ∧ (detectPreAuthPattern [tA, tB, tC] 2 defaultConsolidatorConfig).map
      ConsolidationCandidate.confidence = some .high
  ∧ tA ∈ [tA, tB, { tB with conceptoComplementario1 := "SERUNION VENDING - Snack" }]
  ∧ tB ∈ [tA, tB, { tB with conceptoComplementario1 := "SERUNION VENDING - Snack" }] :=
  ⟨by decide, by rfl, by rfl, by decide, by decide⟩

/-! ## C3: the review list lives in process-lifetime static state -/

/-- Pre-auth leg of a medium-confidence triple (no vending keyword). -/
def tD : ExcelTransaction :=
  { transactionDate := "30/12/2025", referencia2 := "5678",
    debitAmount := some 300, balance := 700,
    conceptoComplementario1 := "RETENCION TARJETA" }

/-- Purchase leg of the medium-confidence triple. -/
def tE : ExcelTransaction :=
  { transactionDate := "30/12/2025", referencia2 := "5678",
    debitAmount := some 50, balance := 650,
    conceptoComplementario1 := "COMPRA CON TARJETA" }

/-- Refund leg of the medium-confidence triple. -/
def tF : ExcelTransaction :=
  { transactionDate := "30/12/2025", referencia2 := "5678",
    creditAmount := some 300, balance := 950,
    conceptoComplementario1 := "DEVOLUCION COMPRA" }

/-- An unrelated transaction for a second `consolidate` call. -/
def tG : ExcelTransaction :=
  { transactionDate := "02/01/2026", referencia2 := "9012",
    debitAmount := some 1500, balance := 2000,
    conceptoComplementario1 := "FOO SHOP" }

/-- The medium-confidence candidate the scan records for manual review. -/
def candM : ConsolidationCandidate :=
  { transactions := [tD, tE, tF]
    confidence := .medium
    reasoning := generateReasoning tD tE tF
    suggestedAccount := "Expenses:Food:Snacks" }

/-- C3: evaluating the code at a medium-confidence triple.  The value the
TypeScript `consolidate` returns (first component) is only the
transaction list — the review candidate is not part of it; the candidate
is observable solely through the `private static manualReviewCandidates`
field (second component).  A later call with consolidation disabled
returns without touching the field, so the candidates observable after
that second call are still the *first* call's — the list is
process-lifetime state, not an explicit per-call result. -/
theorem c3_code_eval :
    consolidate defaultConsolidatorConfig [] [tD, tE, tF] = some ([tD, tE, tF], [candM])
  ∧ consolidate { defaultConsolidatorConfig with enabled := false } [candM] [tG] =
      some ([tG], [candM]) :=
  ⟨by rfl, by rfl⟩

/-! ## C2: the sort is lexicographic on DD/MM/YYYY strings, not calendar -/

/-- Digits of a decimal numeral, most significant first, read into a
natural number. -/
def parseNatChars : List Char → Nat → Nat
  | [], acc => acc
  | c :: cs, acc => parseNatChars cs (acc * 10 + (c.toNat - 48))

/-- Split a character list at every `/`. -/
def splitSlashAux : List Char → List Char → List (List Char)
  | [], cur => [cur.reverse]
  | c :: cs, cur =>
    if c = '/' then cur.reverse :: splitSlashAux cs []
    else splitSlashAux cs (c :: cur)

/-- Modelled from the spec: the calendar ordering key of a `DD/MM/YYYY`
date string (year, then month, then day), used to compare the claim's
"calendar date ascending" against what the code computes. -/
def specCalendarKey (s : String) : Nat :=
  match splitSlashAux s.data [] with
  | [d, m, y] =>
    parseNatChars y 0 * 10000 + parseNatChars m 0 * 100 + parseNatChars d 0
  | _ => 0

/-- A transaction dated 2 January 2025 — calendar-earlier,
lexicographically later. -/
def ta2 : ExcelTransaction :=
  { transactionDate := "02/01/2025", referencia2 := "1111",
    debitAmount := some 1000, balance := 500,
    conceptoComplementario1 := "FOO ONE" }

/-- A transaction dated 1 February 2025 — calendar-later,
lexicographically earlier. -/
def tb2 : ExcelTransaction :=
  { transactionDate := "01/02/2025", referencia2 := "2222",
    debitAmount := some 2000, balance := 300,
    conceptoComplementario1 := "FOO TWO" }

/-- C2 counterexample: with consolidation enabled, `consolidate` places
the 1 February 2025 transaction *before* the 2 January 2025 transaction,
because `localeCompare` on `DD/MM/YYYY` strings compares the day field
first; the claim says the transaction with the earlier calendar date
precedes the other. -/
theorem c2_counterexample :
    (consolidate defaultConsolidatorConfig [] [ta2, tb2]).map Prod.fst =
      some [tb2, ta2]
  ∧ specCalendarKey ta2.transactionDate < specCalendarKey tb2.transactionDate :=
  ⟨by rfl, by decide⟩

/-- C2 as amended: the sort step of `consolidate` orders the sequence by
lexicographic comparison of the `DD/MM/YYYY` date strings (which agrees
with calendar order only within a single month and year), and it is
stable: the subsequence of transactions carrying any fixed date string is
exactly their subsequence in the input. -/
theorem c2_amended (txs : List ExcelTransaction) :
    List.Pairwise txnDateLe (sortByDate txs)
  ∧ ∀ d : String,
      (sortByDate txs).filter (fun t => t.transactionDate == d) =
        txs.filter (fun t => t.transactionDate == d) := by
  constructor
  · exact List.sorted_insertionSort txnDateLe txs
  · intro d
    set p : ExcelTransaction → Bool := fun t => t.transactionDate == d with hp
    have hmem : ∀ a ∈ txs.filter p, ∀ b ∈ txs.filter p, txnDateLe a b := by
      intro a ha b hb
      have hda : a.transactionDate = d := by
        simpa [hp] using (List.of_mem_filter ha)
      have hdb : b.transactionDate = d := by
        simpa [hp] using (List.of_mem_filter hb)
      unfold txnDateLe
      rw [hda, hdb]
      exact strLeb_refl d.data
    have hpw : (txs.filter p).Pairwise txnDateLe :=
      List.pairwise_of_forall_mem_list hmem
    have hsub : (txs.filter p).Sublist (sortByDate txs) :=
      List.sublist_insertionSort hpw (List.filter_sublist txs)
    have hself : (txs.filter p).filter p = txs.filter p :=
      List.filter_eq_self.mpr (fun a ha => List.of_mem_filter ha)
    have hsub2 : (txs.filter p).Sublist ((sortByDate txs).filter p) := by
      have := List.Sublist.filter p hsub
      rwa [hself] at this
    have hperm : ((sortByDate txs).filter p).Perm (txs.filter p) :=
      (List.perm_insertionSort txnDateLe txs).filter p
    exact (hsub2.eq_of_length hperm.length_eq.symm).symm

/-! ## C4: the merged transaction re-derives its legs by threshold -/

/-- A configuration whose small-purchase range extends above the pre-auth
threshold (`purchaseMaxAmount: 5.00`, all other fields default). -/
def cfgWideRange : ConsolidatorConfig :=
  { defaultConsolidatorConfig with purchaseMaxAmount := 500 }

/-- Pre-auth leg of 2.00€ — *below* the 2.50€ `preAuthThreshold`. -/
def tP : ExcelTransaction :=
  { transactionDate := "05/01/2025", referencia2 := "7777",
    debitAmount := some 200, balance := 100,
    conceptoComplementario1 := "SERUNION VENDING" }

/-- Purchase leg of 3.00€ — *above* the 2.50€ `preAuthThreshold`. -/
def tQ : ExcelTransaction :=
  { transactionDate := "05/01/2025", referencia2 := "7777",
    debitAmount := some 300, balance := 200,
    conceptoComplementario1 := "COMPRA CON TARJETA" }

/-- Refund leg of 2.00€ matching the pre-auth. -/
def tR : ExcelTransaction :=
  { transactionDate := "05/01/2025", referencia2 := "7777",
    creditAmount := some 200, balance := 400,
    conceptoComplementario1 := "DEVOLUCION COMPRA" }

/-- C4 counterexample: a high-confidence triple whose purchase leg
(3.00€) lies at or above `preAuthThreshold` while the pre-auth leg
(2.00€) lies below it.  `createConsolidatedTransaction` re-derives the
legs by comparing debit amounts against the threshold instead of using
the candidate's known order, so the merge is built from the *pre-auth*
leg: the emitted transaction carries debit 2.00€, not the purchase leg's
3.00€ (and the pre-auth's date/balance), and its narration is built from
the purchase's description — the claim's field correspondence fails. -/
theorem c4_counterexample :
    (detectPreAuthPattern [tP, tQ, tR] 2 cfgWideRange).map
      ConsolidationCandidate.transactions = some [tP, tQ, tR]
  ∧ (detectPreAuthPattern [tP, tQ, tR] 2 cfgWideRange).map
      ConsolidationCandidate.confidence = some .high
  ∧ consolidate cfgWideRange [] [tP, tQ, tR] =
      some ([tP, tQ,
        { tP with conceptoComplementario1 := "COMPRA CON TARJETA - Purchase" }], [])
  ∧ ({ tP with conceptoComplementario1 := "COMPRA CON TARJETA - Purchase" }
      : ExcelTransaction).debitAmount = some 200
  ∧ tQ.debitAmount = some 300 :=
  ⟨by rfl, by rfl, by decide, by rfl, by rfl⟩

/-- C4 as amended: for a candidate triple `[preAuth, purchase, refund]`
*whose pre-auth debit is at or above the (positive) `preAuthThreshold`
and whose purchase debit is nonzero and below it*, the merged transaction
is the purchase leg — carrying its date, debit amount and balance — with
`conceptoComplementario1` rewritten to the pre-auth's description,
`" - "`, and the item token derived from the purchase's debit amount
(`≤ 0.6` → Snack, `≤ 1.2` → Drink, else Purchase). -/
theorem c4_amended (config : ConsolidatorConfig)
    (preAuth purchase refund : ExcelTransaction)
    (conf : Confidence) (reas acct : String) (a b : Int)
    (hpa : preAuth.debitAmount = some a)
    (hthr : config.preAuthThreshold ≤ a)
    (hpos : 0 < config.preAuthThreshold)
    (hpu : purchase.debitAmount = some b)
    (hb0 : b ≠ 0)
    (hblt : b < config.preAuthThreshold) :
    createConsolidatedTransaction ⟨[preAuth, purchase, refund], conf, reas, acct⟩ config =
      some { purchase with
             conceptoComplementario1 :=
               buildDescription preAuth ++ " - " ++
                 (if b ≤ 60 then "Snack" else if b ≤ 120 then "Drink" else "Purchase") } := by
  have ha0 : a ≠ 0 := by omega
  have hnotlt : ¬ a < config.preAuthThreshold := by omega
  have hnotle : ¬ config.preAuthThreshold ≤ b := by omega
  unfold createConsolidatedTransaction
  simp [List.find?, hpa, hpu, ha0, hb0, hnotlt, hthr, hblt, hnotle,
    generateConsolidatedDescription]

/-- C4 witness: the amended theorem applied to the concrete default
configuration and the vending triple — the merge is built from the
purchase leg `tB`, keeping its debit of 0.50€ and acquiring the
`"Snack"` narration. -/
theorem c4_amended_witness :
    createConsolidatedTransaction ⟨[tA, tB, tC], .high, "r", "s"⟩ defaultConsolidatorConfig =
      some { tB with
             conceptoComplementario1 :=
               buildDescription tA ++ " - " ++
                 (if (50 : Int) ≤ 60 then "Snack"
                  else if (50 : Int) ≤ 120 then "Drink" else "Purchase") } :=
  c4_amended defaultConsolidatorConfig tA tB tC .high "r" "s" 300 50
    rfl (by decide) (by decide) rfl (by decide) (by decide)

/-! ## C8: the fallback-condition evaluator -/

/-- A transaction of 1.00€ debit, for the fallback counterexample. -/
def tLow : ExcelTransaction :=
  { transactionDate := "03/01/2025", referencia2 := "3333",
    debitAmount := some 100, balance := 100,
    conceptoComplementario1 := "SHOP" }

/-- C8 counterexample: the fallback rule whose condition is the single
amount-threshold clause `"amount >= 5.00"` matches a transaction whose
amount is 1.00€ — the evaluator only recognises the two literal clause
strings `'amount <= 2.00'` and
`"description CONTAINS 'compra con tarjeta'"` and silently ignores every
other clause, so the claim that a rule never matches a transaction
violating one of its listed clauses is false. -/
theorem c8_counterexample :
    evaluateFallbackCondition "amount >= 5.00" tLow "shop" = true
  ∧ jsAmount tLow = 100
  ∧ ¬ (500 ≤ (100 : Int)) := by
  exact ⟨by decide, by rfl, by decide⟩

/-- C8 as amended: a fallback condition matches a transaction exactly
when each of the two *recognised* clause literals it contains holds —
`'amount <= 2.00'` requires the amount (debit if truthy, else credit,
else zero) to be at most 2.00€, and
`"description CONTAINS 'compra con tarjeta'"` requires the substring —
while any other clause text is ignored (a condition with neither literal
matches every transaction). -/
theorem c8_amended (condition : String) (txn : ExcelTransaction) (description : String) :
    evaluateFallbackCondition condition txn description = true ↔
      ((containsSub condition "amount <= 2.00" = true → jsAmount txn ≤ 200) ∧
       (containsSub condition "description CONTAINS 'compra con tarjeta'" = true →
         containsSub description "compra con tarjeta" = true)) := by
  unfold evaluateFallbackCondition
  by_cases hamt : 200 < jsAmount txn <;>
    cases hA : containsSub condition "amount <= 2.00" <;>
      cases hD : containsSub condition "description CONTAINS 'compra con tarjeta'" <;>
        cases hS : containsSub description "compra con tarjeta" <;>
          simp [hA, hD, hS, hamt] <;> omega

/-! ## C7 and C9: classifier rule priority and malformed patterns -/

/-- When every pattern in the list compiles and fails to match, the
pattern stage returns `ok none`. -/
theorem patternStage_none (compileRegex : String → Option (String → Bool))
    (description : String) :
    ∀ patterns : List PatternRule,
      (∀ q ∈ patterns, ∃ f, compileRegex q.regex = some f ∧ f description = false) →
      patternStage compileRegex patterns description = .ok none := by
  intro patterns
  induction patterns with
  | nil => intro _; rfl
  | cons p rest ih =>
    intro h
    obtain ⟨f, hf, hfd⟩ := h p (List.mem_cons_self p rest)
    rw [patternStage, hf]
    simp only [hfd, Bool.false_eq_true, if_false]
    exact ih (fun q hq => h q (List.mem_cons_of_mem p hq))

/-- The first compiling-and-matching pattern wins when everything before
it compiles and fails to match. -/
theorem patternStage_first (compileRegex : String → Option (String → Bool))
    (description : String) (p : PatternRule) (post : List PatternRule) :
    ∀ pre : List PatternRule,
      (∀ q ∈ pre, ∃ f, compileRegex q.regex = some f ∧ f description = false) →
      (∃ f, compileRegex p.regex = some f ∧ f description = true) →
      patternStage compileRegex (pre ++ p :: post) description = .ok (some p.account) := by
  intro pre
  induction pre with
  | nil =>
    intro _ hp
    obtain ⟨f, hf, hfd⟩ := hp
    rw [List.nil_append, patternStage, hf]
    simp [hfd]
  | cons q rest ih =>
    intro hpre hp
    obtain ⟨f, hf, hfd⟩ := hpre q (List.mem_cons_self q rest)
    rw [List.cons_append, patternStage, hf]
    simp only [hfd, Bool.false_eq_true, if_false]
    exact ih (fun q' hq' => hpre q' (List.mem_cons_of_mem q hq')) hp

/-- A malformed pattern reached by the stage produces the error. -/
theorem patternStage_error (compileRegex : String → Option (String → Bool))
    (description : String) (bad : PatternRule) (post : List PatternRule) :
    ∀ pre : List PatternRule,
      (∀ q ∈ pre, ∃ f, compileRegex q.regex = some f ∧ f description = false) →
      compileRegex bad.regex = none →
      patternStage compileRegex (pre ++ bad :: post) description = .error bad.regex := by
  intro pre
  induction pre with
  | nil =>
    intro _ hbad
    rw [List.nil_append, patternStage, hbad]
  | cons q rest ih =>
    intro hpre hbad
    obtain ⟨f, hf, hfd⟩ := hpre q (List.mem_cons_self q rest)
    rw [List.cons_append, patternStage, hf]
    simp only [hfd, Bool.false_eq_true, if_false]
    exact ih (fun q' hq' => hpre q' (List.mem_cons_of_mem q hq')) hbad

/-- C7: `determineAccount` evaluates keyword rules first (in order), then
regex patterns (in order), then fallback rules (in order), and returns
the first match's account: (1) whenever `find?` locates a first matching
keyword rule, its account is returned no matter what the patterns and
fallbacks are — in particular a keyword rule beats any matching pattern
rule; (2) with no keyword match, the first compiling-and-matching pattern
rule's account is returned; (3) with no keyword or pattern match, the
first matching fallback rule's account is returned; (4) when no rule of
any kind matches, the reserved `"Expenses:Unknown"` account is
returned. -/
theorem c7_priority :
    (∀ compileRegex config txn rule,
      config.rules.find? (keywordMatches (descriptionOf txn)) = some rule →
      determineAccount compileRegex config txn = .ok rule.account)
  ∧ (∀ compileRegex config txn p pre post,
      config.rules.find? (keywordMatches (descriptionOf txn)) = none →
      config.patterns = pre ++ p :: post →
      (∀ q ∈ pre, ∃ f, compileRegex q.regex = some f ∧ f (descriptionOf txn) = false) →
      (∃ f, compileRegex p.regex = some f ∧ f (descriptionOf txn) = true) →
      determineAccount compileRegex config txn = .ok p.account)
  ∧ (∀ compileRegex config txn fb,
      config.rules.find? (keywordMatches (descriptionOf txn)) = none →
      (∀ q ∈ config.patterns,
        ∃ f, compileRegex q.regex = some f ∧ f (descriptionOf txn) = false) →
      config.fallbacks.find?
        (fun fb => evaluateFallbackCondition fb.condition txn (descriptionOf txn)) =
          some fb →
      determineAccount compileRegex config txn = .ok fb.account)
  ∧ (∀ compileRegex config txn,
      config.rules.find? (keywordMatches (descriptionOf txn)) = none →
      (∀ q ∈ config.patterns,
        ∃ f, compileRegex q.regex = some f ∧ f (descriptionOf txn) = false) →
      (∀ fb ∈ config.fallbacks,
        evaluateFallbackCondition fb.condition txn (descriptionOf txn) = false) →
      determineAccount compileRegex config txn = .ok "Expenses:Unknown") := by
  refine ⟨?_, ?_, ?_, ?_⟩
  · intro compileRegex config txn rule hkw
    unfold determineAccount
    dsimp only
    rw [hkw]
  · intro compileRegex config txn p pre post hkw hpat hpre hp
    unfold determineAccount
    dsimp only
    rw [hkw, hpat, patternStage_first compileRegex _ p post pre hpre hp]
  · intro compileRegex config txn fb hkw hpats hfb
    unfold determineAccount
    dsimp only
    rw [hkw, patternStage_none compileRegex _ config.patterns hpats, hfb]
  · intro compileRegex config txn hkw hpats hfbs
    unfold determineAccount
    dsimp only
    rw [hkw, patternStage_none compileRegex _ config.patterns hpats,
      List.find?_eq_none.mpr (fun fb hfb => by simp [hfbs fb hfb])]

/-- C9: a malformed pattern rule is a configuration error that propagates
to the caller: whenever no keyword rule matches (so the pattern stage is
reached) and every pattern before the malformed one compiles and fails to
match, `determineAccount` returns the error rather than any account. -/
theorem c9_malformed_regex (compileRegex : String → Option (String → Bool))
    (config : MerchantConfig) (txn : ExcelTransaction)
    (pre post : List PatternRule) (bad : PatternRule)
    (hkw : config.rules.find? (keywordMatches (descriptionOf txn)) = none)
    (hpat : config.patterns = pre ++ bad :: post)
    (hpre : ∀ q ∈ pre, ∃ f, compileRegex q.regex = some f ∧ f (descriptionOf txn) = false)
    (hbad : compileRegex bad.regex = none) :
    determineAccount compileRegex config txn = .error bad.regex := by
  unfold determineAccount
  dsimp only
  rw [hkw, hpat, patternStage_error compileRegex _ bad post pre hpre hbad]

/-- A concrete instance of the regex-compiler abstraction for the
witnesses: a literal-string pattern compiles to a case-blind substring
test, and the pattern `"["` — for which `new RegExp` genuinely throws a
`SyntaxError` — is malformed. -/
def sampleCompileRegex : String → Option (String → Bool) :=
  fun pattern =>
    if pattern = "[" then none
    else some (fun description => containsSub (toLowerStr description) (toLowerStr pattern))

/-- The built-in fallback rule set of `loadMerchantConfig` (keyword rules
only), used by the classifier witnesses. -/
def builtinMerchantConfig : MerchantConfig :=
  { rules :=
      [ { keywords := ["shell", "fuel", "gas"], account := "Expenses:Transportation:Fuel" }
      , { keywords := ["amazon", "lidl"], account := "Expenses:Groceries" }
      , { keywords := ["bizum", "transfer"], account := "Assets:Bank:Caixa:Savings" }
      , { keywords := ["income", "salary", "haber"], account := "Income:Salary" }
      , { keywords := ["vending", "snack"], account := "Expenses:Food:Snacks" }
      , { keywords := ["steam", "game"], account := "Expenses:Entertainment:Games" } ]
    patterns := []
    fallbacks := [] }

/-- A debit transaction at a Shell petrol station. -/
def tShell : ExcelTransaction :=
  { transactionDate := "04/01/2025", referencia2 := "4444",
    debitAmount := some 4050, balance := 800,
    conceptoComplementario1 := "SHELL ESTACION" }

/-- A transaction matching no built-in keyword rule. -/
def tMystery : ExcelTransaction :=
  { transactionDate := "04/01/2025", referencia2 := "4444",
    debitAmount := some 999, balance := 700,
    conceptoComplementario1 := "ZZZZ" }

/-- A rule set whose keyword rule and pattern rule both match a Shell
description, to witness keyword-over-pattern precedence. -/
def overlapMerchantConfig : MerchantConfig :=
  { rules := [ { keywords := ["shell"], account := "Expenses:Transportation:Fuel" } ]
    patterns := [ { regex := "shell", account := "Expenses:Wrong" } ]
    fallbacks := [] }

/-- C7 witness: the priority theorem applied at concrete inputs — the
Shell transaction classifies to the fuel account through the keyword
stage even though a pattern rule also matches, and a transaction matching
nothing classifies to the reserved unknown account. -/
theorem c7_priority_witness :
    determineAccount sampleCompileRegex overlapMerchantConfig tShell =
      .ok "Expenses:Transportation:Fuel"
  ∧ determineAccount sampleCompileRegex builtinMerchantConfig tMystery =
      .ok "Expenses:Unknown" :=
  ⟨c7_priority.1 sampleCompileRegex overlapMerchantConfig tShell
      { keywords := ["shell"], account := "Expenses:Transportation:Fuel" } (by decide),
    c7_priority.2.2.2 sampleCompileRegex builtinMerchantConfig tMystery (by decide)
      (by intro q hq; cases hq) (by intro fb hfb; cases hfb)⟩

/-- A rule set whose only pattern is the malformed regex `"["`. -/
def malformedMerchantConfig : MerchantConfig :=
  { rules := []
    patterns := [ { regex := "[", account := "Expenses:Whatever" } ]
    fallbacks := [] }

/-- C9 witness: the malformed-regex theorem applied at a concrete rule
set — classification of the Shell transaction surfaces the error
carrying the malformed pattern. -/
theorem c9_malformed_regex_witness :
    determineAccount sampleCompileRegex malformedMerchantConfig tShell = .error "[" :=
  c9_malformed_regex sampleCompileRegex malformedMerchantConfig tShell [] []
    { regex := "[", account := "Expenses:Whatever" }
    (by rfl) (by rfl) (by intro q hq; cases hq) (by rfl)

/-! ## C6: the preceding-purchase search window -/

/-- The backward scan re-expressed over a list of transactions instead
of indices (used to relate the loop to its specification). -/
def scanList (refund : ExcelTransaction) (test : ExcelTransaction → Bool) :
    List ExcelTransaction → Option ExcelTransaction
  | [] => none
  | t :: ts =>
    if t.transactionDate ≠ refund.transactionDate then none
    else if t.referencia2 ≠ refund.referencia2 then scanList refund test ts
    else if test t then some t
    else scanList refund test ts

/-- Modelled from the spec: the preceding-purchase search described by
the claim — examine the `bound` positions immediately before the
refund's index, scanning backward, stop at the first date change, and
accept the nearest transaction with the refund's `referencia2` whose
debit lies in the configured range and whose description contains the
card-purchase keyword.  The claim states `bound = 10`. -/
def findPurchaseSpec (bound : Nat) (txs : List ExcelTransaction) (refundIndex : Nat)
    (refund : ExcelTransaction) (config : ConsolidatorConfig) : Option ExcelTransaction :=
  (((txs.take refundIndex).reverse.take bound).takeWhile
      (fun t => t.transactionDate == refund.transactionDate)).find?
    (fun t => t.referencia2 == refund.referencia2 && purchaseTest config t)

theorem scanBack_eq_scanList (txs : List ExcelTransaction) (refund : ExcelTransaction)
    (test : ExcelTransaction → Bool) :
    ∀ is : List Nat, (∀ j ∈ is, j < txs.length) →
      scanBack txs refund test is = scanList refund test (is.filterMap txs.get?) := by
  intro is
  induction is with
  | nil => intro _; rfl
  | cons i rest ih =>
    intro h
    have hi : i < txs.length := h i (List.mem_cons_self i rest)
    obtain ⟨t, ht⟩ : ∃ t, txs.get? i = some t :=
      ⟨txs.get ⟨i, hi⟩, List.get?_eq_get hi⟩
    rw [scanBack, ht, List.filterMap_cons, ht]
    simp only [scanList]
    have hrest := ih (fun j hj => h j (List.mem_cons_of_mem i hj))
    by_cases hdate : t.transactionDate ≠ refund.transactionDate
    · rw [if_pos hdate, if_pos hdate]
    · rw [if_neg hdate, if_neg hdate]
      by_cases href : t.referencia2 ≠ refund.referencia2
      · rw [if_pos href, if_pos href, hrest]
      · rw [if_neg href, if_neg href]
        by_cases htest : test t
        · rw [if_pos htest, if_pos htest]
        · rw [if_neg htest, if_neg htest, hrest]

theorem backOffsets_filterMap (txs : List ExcelTransaction) (i : Nat)
    (h : i ≤ txs.length) :
    ∀ bound : Nat,
      (backOffsets i bound).filterMap txs.get? = (txs.take i).reverse.take bound := by
  intro bound
  induction bound with
  | zero => simp [backOffsets]
  | succ bound ih =>
    have hlen2 : (txs.take i).length = i := by
      simp [List.length_take, Nat.min_eq_left h]
    have hlenr : ((txs.take i).reverse).length = i := by
      simp [hlen2]
    rw [backOffsets, List.range_succ, List.filterMap_append, List.filterMap_append]
    rw [backOffsets] at ih
    rw [ih, List.take_succ]
    congr 1
    by_cases hbi : bound < i
    · have hrev : ((txs.take i).reverse)[bound]? = (txs.take i)[i - 1 - bound]? := by
        rw [List.getElem?_reverse (by omega)]
        rw [hlen2]
      have htake : (txs.take i)[i - 1 - bound]? = txs[i - 1 - bound]? := by
        rw [List.getElem?_take, if_pos (by omega)]
      rw [hrev, htake]
      simp only [List.filterMap_cons, List.filterMap_nil, if_pos hbi,
        List.get?_eq_getElem?]
      cases txs[i - 1 - bound]? <;> rfl
    · simp only [List.filterMap_cons, List.filterMap_nil, if_neg hbi]
      rw [List.getElem?_eq_none (by omega)]
      rfl

theorem scanList_eq_takeWhile_find? (refund : ExcelTransaction)
    (test : ExcelTransaction → Bool) :
    ∀ l : List ExcelTransaction,
      scanList refund test l =
        (l.takeWhile (fun t => t.transactionDate == refund.transactionDate)).find?
          (fun t => t.referencia2 == refund.referencia2 && test t) := by
  intro l
  induction l with
  | nil => rfl
  | cons t ts ih =>
    rw [scanList]
    by_cases hdate : t.transactionDate ≠ refund.transactionDate
    · rw [if_pos hdate, List.takeWhile_cons]
      simp only [beq_eq_false_iff_ne.mpr hdate, Bool.false_eq_true, if_false]
      rfl
    · have hdate' : t.transactionDate = refund.transactionDate := not_not.mp hdate
      rw [if_neg hdate, List.takeWhile_cons]
      simp only [beq_iff_eq.mpr hdate', if_true, List.find?_cons]
      by_cases href : t.referencia2 ≠ refund.referencia2
      · rw [if_pos href]
        simp only [beq_eq_false_iff_ne.mpr href, Bool.false_and]
        exact ih
      · have href' : t.referencia2 = refund.referencia2 := not_not.mp href
        rw [if_neg href]
        by_cases htest : test t
        · rw [if_pos htest]
          simp [beq_iff_eq.mpr href', htest]
        · rw [if_neg htest]
          simp only [Bool.eq_false_iff.mpr htest, Bool.and_false]
          exact ih

/-- The purchase leg for the C6 counterexample, 10 positions before the
refund. -/
def u0 : ExcelTransaction :=
  { transactionDate := "05/01/2025", referencia2 := "9999",
    debitAmount := some 100, balance := 100,
    conceptoComplementario1 := "COMPRA CON TARJETA" }

/-- Same-date, same-card filler with no debit amount (skipped by the
scan without stopping it). -/
def uFill : ExcelTransaction :=
  { transactionDate := "05/01/2025", referencia2 := "9999",
    debitAmount := none, balance := 100,
    conceptoComplementario1 := "FILLER" }

/-- The refund for the C6 counterexample, at index 10. -/
def u10 : ExcelTransaction :=
  { transactionDate := "05/01/2025", referencia2 := "9999",
    creditAmount := some 300, balance := 400,
    conceptoComplementario1 := "DEVOLUCION COMPRA" }

/-- Purchase at index 0, nine fillers, refund at index 10. -/
def txsC6 : List ExcelTransaction := u0 :: (List.replicate 9 uFill ++ [u10])

/-- C6 counterexample: the only qualifying purchase sits exactly 10
positions before the refund (index 0, refund at index 10, all on one
date).  The 10-position window of the claim contains it — the
spec-modelled search with bound 10 finds it — but the code's loop guard
`i > refundIndex - 10` visits only the 9 positions before the refund and
returns nothing, so the refund is passed through even though a qualifying
transaction exists in the claimed window. -/
theorem c6_counterexample :
    findPrecedingPurchase txsC6 10 u10 defaultConsolidatorConfig = none
  ∧ findPurchaseSpec 10 txsC6 10 u10 defaultConsolidatorConfig = some u0
  ∧ purchaseTest defaultConsolidatorConfig u0 = true
  ∧ txsC6.get? 0 = some u0 := by
  exact ⟨by decide, by decide, by decide, by rfl⟩

/-- C6 as amended: the preceding-purchase search examines at most the *9*
positions immediately before the refund's index (the loop guard is
`i > refundIndex - 10`), scanning backward, stops at the first date
change, and accepts the nearest same-card transaction whose debit lies in
the configured range and whose description contains the card-purchase
keyword — it equals the spec-shaped search with bound 9; and when it
finds nothing the refund is passed through unchanged: the candidate
detection yields nothing, and the scan step emits the transaction
verbatim. -/
theorem c6_amended :
    (∀ (txs : List ExcelTransaction) (refundIndex : Nat) (refund : ExcelTransaction)
        (config : ConsolidatorConfig), refundIndex ≤ txs.length →
        findPrecedingPurchase txs refundIndex refund config =
          findPurchaseSpec 9 txs refundIndex refund config)
  ∧ (∀ (txs : List ExcelTransaction) (refundIndex : Nat) (config : ConsolidatorConfig)
        (t : ExcelTransaction), txs.get? refundIndex = some t →
        findPrecedingPurchase txs refundIndex t config = none →
        detectPreAuthPattern txs refundIndex config = none)
  ∧ (∀ (config : ConsolidatorConfig) (txs : List ExcelTransaction) (i : Nat)
        (rest : List Nat) (processed : List (String × String × Int × Int))
        (out : List ExcelTransaction) (review : List ConsolidationCandidate)
        (t : ExcelTransaction), txs.get? i = some t →
        getTransactionId t ∉ processed →
        detectPreAuthPattern txs i config = none →
        consolidateScan config txs (i :: rest) processed out review =
          consolidateScan config txs rest processed (out ++ [t]) review) := by
  refine ⟨?_, ?_, ?_⟩
  · intro txs refundIndex refund config h
    unfold findPrecedingPurchase findPurchaseSpec
    rw [scanBack_eq_scanList txs refund _ (backOffsets refundIndex 9)
      (fun j hj => by
        simp only [backOffsets, List.mem_filterMap, List.mem_range] at hj
        obtain ⟨k, _, hk⟩ := hj
        by_cases hki : k < refundIndex
        · rw [if_pos hki] at hk
          cases hk
          omega
        · rw [if_neg hki] at hk
          cases hk)]
    rw [backOffsets_filterMap txs refundIndex h 9,
      scanList_eq_takeWhile_find? refund _ ((txs.take refundIndex).reverse.take 9)]
  · intro txs refundIndex config t hget hnone
    unfold detectPreAuthPattern
    rw [hget]
    simp only
    by_cases href : isRefundCandidate t
    · rw [if_neg (by simp [href]), hnone]
    · rw [if_pos (by simp [href])]
  · intro config txs i rest processed out review t hget hproc hdet
    rw [consolidateScan, hget]
    simp only
    rw [if_neg hproc, hdet]

/-- Same-date same-card transaction with no debit, for the C6 witness. -/
def wFill : ExcelTransaction :=
  { transactionDate := "06/01/2025", referencia2 := "8888",
    debitAmount := none, balance := 50,
    conceptoComplementario1 := "NO PURCHASE HERE" }

/-- A refund with no matching purchase, for the C6 witness. -/
def wR : ExcelTransaction :=
  { transactionDate := "06/01/2025", referencia2 := "8888",
    creditAmount := some 300, balance := 350,
    conceptoComplementario1 := "DEVOLUCION COMPRA" }

/-- The two-transaction input for the C6 witness. -/
def txsW : List ExcelTransaction := [wFill, wR]

/-- C6 witness: the amended theorem applied at a concrete refund with no
qualifying preceding purchase — the code's search agrees with the bound-9
specification, the candidate detection yields nothing, and the scan step
passes the refund through verbatim. -/
theorem c6_amended_witness :
    findPrecedingPurchase txsW 1 wR defaultConsolidatorConfig =
      findPurchaseSpec 9 txsW 1 wR defaultConsolidatorConfig
  ∧ detectPreAuthPattern txsW 1 defaultConsolidatorConfig = none
  ∧ consolidateScan defaultConsolidatorConfig txsW [1] [] [] [] =
      consolidateScan defaultConsolidatorConfig txsW [] [] [wR] [] :=
  ⟨c6_amended.1 txsW 1 wR defaultConsolidatorConfig (by decide),
   c6_amended.2.1 txsW 1 defaultConsolidatorConfig wR (by rfl) (by rfl),
   c6_amended.2.2 defaultConsolidatorConfig txsW 1 [] [] [] [] wR
     (by rfl) (by decide) (by rfl)⟩

/-- The candidate `detectPreAuthPattern` builds for the vending triple,
for the C10 witness. -/
def candW : ConsolidationCandidate :=
  { transactions := [tA, tB, tC]
    confidence := .high
    reasoning := generateReasoning tA tB tC
    suggestedAccount := "Expenses:Food:Snacks" }

/-- C10 witness: the confidence lower bound applied at the concrete
vending triple, whose detected candidate is high confidence. -/
theorem c10_detect_confidence_witness :
    candW.confidence = .high ∨ candW.confidence = .medium :=
  c10_detect_confidence [tA, tB, tC] 2 defaultConsolidatorConfig candW (by rfl)
